import Mathlib

/-!
Shallow embedding of the Spotify ↔ Deezer playlist converter (`app.py`).

Strings are modelled as `List Char`.  Network interactions are modelled by
passing the platform's responses as explicit arguments: a search receives the
HTTP status and the decoded candidate list, a paginated fetch receives the
sequence of page responses, playlist creation returns the list of add-track
calls it would issue.
-/

namespace MusicConverter

/-- A character matched by Python's regex class `\w` (ASCII fragment):
alphanumeric or underscore. -/
def isWordChar (c : Char) : Bool := c.isAlphanum || c = '_'

/-- A character matched by Python's regex class `\s` (ASCII fragment). -/
def isSpaceChar (c : Char) : Bool :=
  c = ' ' || c = '\t' || c = '\n' || c = '\r' || c = '\x0b' || c = '\x0c'

/-- `re.sub(r'[^\w\s]', '', s)` — drop every character that is neither a
word character nor whitespace (app.py lines 449–450, 546–547). -/
def pyClean (s : List Char) : List Char :=
  s.filter (fun c => isWordChar c || isSpaceChar c)

/-- `s.lower()` (ASCII fragment). -/
def lowerStr (s : List Char) : List Char := s.map Char.toLower

/-- Python's substring test `needle in hay` for strings. -/
def isSubstr (needle hay : List Char) : Bool :=
  hay.tails.any (fun t => needle.isPrefixOf t)

/-- `a in b or b in a` — the bidirectional containment test. -/
def containsEither (a b : List Char) : Bool :=
  isSubstr a b || isSubstr b a

/-- A Deezer track object as decoded from the API's JSON
(fields `title`, `artist.name`, `album.title`, `duration`, `id`). -/
structure DTrackRaw where
  title : List Char
  artistName : List Char
  albumTitle : List Char
  duration : Nat
  id : Nat
  deriving Repr, DecidableEq

/-- The dict built per track by `get_deezer_playlist_tracks`
(app.py lines 355–361). -/
structure DTrackDict where
  title : List Char
  artist : List Char
  album : List Char
  duration : Nat
  deezer_id : Nat
  deriving Repr, DecidableEq

def dTrackToDict (t : DTrackRaw) : DTrackDict :=
  ⟨t.title, t.artistName, t.albumTitle, t.duration, t.id⟩

/-- The dict returned by `search_deezer_track` (app.py lines 470–476, 480–486). -/
structure DSearchResult where
  id : Nat
  title : List Char
  artist : List Char
  album : List Char
  duration : Nat
  deriving Repr, DecidableEq

def dResult (t : DTrackRaw) : DSearchResult :=
  ⟨t.id, t.title, t.artistName, t.albumTitle, t.duration⟩

/-- The per-candidate test of `search_deezer_track` (app.py lines 465–469):
the candidate's title and artist are lowercased (not punctuation-stripped), the
query's cleaned title/artist are lowercased, and each pair must contain one
another as a substring in at least one direction. -/
def deezerMatchTest (ct ca : List Char) (t : DTrackRaw) : Bool :=
  let track_title := lowerStr t.title
  let track_artist := lowerStr t.artistName
  containsEither (lowerStr ct) track_title &&
  containsEither (lowerStr ca) track_artist

/-- `search_deezer_track(title, artist)` (app.py lines 445–491), with the HTTP
status and decoded candidate list of the search response passed explicitly.
Returns the first candidate passing `deezerMatchTest`, else the first
candidate, else `none` when the status is not 200 or no candidate exists. -/
def search_deezer_track (title artist : List Char) (status : Nat)
    (data : List DTrackRaw) : Option DSearchResult :=
  let clean_title := pyClean title
  let clean_artist := pyClean artist
  if status = 200 then
    match data with
    | [] => none
    | t0 :: _ =>
      match data.find? (deezerMatchTest clean_title clean_artist) with
      | some t => some (dResult t)
      | none => some (dResult t0)
  else none

/-- A Spotify track object as decoded from the API's JSON
(fields `name`, artist names, `album.name`, `duration_ms`, `id`, `type`). -/
structure STrackRaw where
  name : List Char
  artists : List (List Char)
  albumName : List Char
  duration_ms : Nat
  id : List Char
  type : List Char
  deriving Repr, DecidableEq

/-- The dict returned by `search_spotify_track` (app.py lines 560–576). -/
structure SSearchResult where
  id : List Char
  title : List Char
  artists : List (List Char)
  album : List Char
  duration : Nat
  deriving Repr, DecidableEq

def sResult (t : STrackRaw) : SSearchResult :=
  ⟨t.id, t.name, t.artists, t.albumName, t.duration_ms / 1000⟩

/-- The per-candidate test of `search_spotify_track` (app.py lines 555–559):
title containment as on Deezer, and the artist containment may hold against
any of the candidate's artists. -/
def spotifyMatchTest (ct ca : List Char) (t : STrackRaw) : Bool :=
  let track_title := lowerStr t.name
  let track_artists := t.artists.map lowerStr
  containsEither (lowerStr ct) track_title &&
  track_artists.any (fun ta => containsEither (lowerStr ca) ta)

/-- `search_spotify_track(title, artist)` (app.py lines 540–581), with the
decoded candidate items of the search response passed explicitly. -/
def search_spotify_track (title artist : List Char)
    (items : List STrackRaw) : Option SSearchResult :=
  let clean_title := pyClean title
  let clean_artist := pyClean artist
  match items with
  | [] => none
  | t0 :: _ =>
    match items.find? (spotifyMatchTest clean_title clean_artist) with
    | some t => some (sResult t)
    | none => some (sResult t0)

/-- One response of the Deezer playlist-tracks endpoint: an HTTP response
carrying a status, the decoded `data` array and whether a `next` URL is
present, or a transport failure (a raised `requests` exception). -/
inductive DeezerTracksResp where
  | http (status : Nat) (data : List DTrackRaw) (hasNext : Bool)
  | transportErr
  deriving Repr, DecidableEq

/-- The `while url:` loop of `get_deezer_playlist_tracks`
(app.py lines 348–381): 200 appends the page and follows `next`; 403 and 404
return an empty list; any other status breaks, returning the accumulated
tracks; a raised exception is caught by the surrounding `try`, which returns
an empty list. -/
def get_deezer_playlist_tracks_go (acc : List DTrackDict) :
    List DeezerTracksResp → List DTrackDict
  | [] => acc
  | DeezerTracksResp.http status data hasNext :: rest =>
    if status = 200 then
      let acc' := acc ++ data.map dTrackToDict
      if hasNext then get_deezer_playlist_tracks_go acc' rest else acc'
    else if status = 403 then []
    else if status = 404 then []
    else acc
  | DeezerTracksResp.transportErr :: _ => []

/-- `get_deezer_playlist_tracks(playlist_id)` (app.py lines 342–381), with the
sequence of page responses passed explicitly. -/
def get_deezer_playlist_tracks (resps : List DeezerTracksResp) : List DTrackDict :=
  get_deezer_playlist_tracks_go [] resps

/-- The dict built per track by `get_spotify_playlist_tracks`
(app.py lines 426–433). -/
structure STrackDict where
  title : List Char
  artist : List Char
  artists : List (List Char)
  album : List Char
  duration : Nat
  spotify_id : List Char
  deriving Repr, DecidableEq

/-- One item of a Spotify playlist page; `item['track']` may be null
(e.g. a removed or local entry). -/
structure SpotifyItem where
  track : Option STrackRaw
  deriving Repr, DecidableEq

/-- The per-item body of `get_spotify_playlist_tracks`
(app.py lines 422–433): an item is kept only when `item['track']` is present
and its `type` is `'track'`. -/
def extractSpotifyItem (item : SpotifyItem) : Option STrackDict :=
  match item.track with
  | none => none
  | some t =>
    if t.type = "track".toList then
      some ⟨t.name, (t.artists.headD []), t.artists, t.albumName,
            t.duration_ms / 1000, t.id⟩
    else none

/-- One page of a Spotify paginated listing of playlist items. -/
structure SpotifyTracksPage where
  items : List SpotifyItem
  hasNext : Bool
  deriving Repr, DecidableEq

/-- The `while results:` loop of `get_spotify_playlist_tracks`
(app.py lines 421–438). -/
def get_spotify_playlist_tracks_go (acc : List STrackDict) :
    List SpotifyTracksPage → List STrackDict
  | [] => acc
  | p :: rest =>
    let acc' := acc ++ p.items.filterMap extractSpotifyItem
    if p.hasNext then get_spotify_playlist_tracks_go acc' rest else acc'

/-- `get_spotify_playlist_tracks(playlist_id)` (app.py lines 412–443), with
the sequence of page responses passed explicitly. -/
def get_spotify_playlist_tracks (pages : List SpotifyTracksPage) : List STrackDict :=
  get_spotify_playlist_tracks_go [] pages

/-- One playlist object of `current_user_playlists` (app.py lines 393–400). -/
structure SPlaylistItem where
  id : List Char
  name : List Char
  description : List Char
  tracksTotal : Nat
  ownerId : List Char
  deriving Repr, DecidableEq

/-- The dict built per kept playlist by `get_spotify_playlists`
(app.py lines 395–400). -/
structure SPlaylistDict where
  id : List Char
  name : List Char
  description : List Char
  tracks_total : Nat
  deriving Repr, DecidableEq

def sPlaylistToDict (p : SPlaylistItem) : SPlaylistDict :=
  ⟨p.id, p.name, p.description, p.tracksTotal⟩

/-- One page of the user's playlists listing. -/
structure SPlaylistPage where
  items : List SPlaylistItem
  hasNext : Bool
  deriving Repr, DecidableEq

/-- The `while results:` loop of `get_spotify_playlists`
(app.py lines 392–405): an item is kept only when its owner id equals the
current user's id. -/
def get_spotify_playlists_go (userId : List Char) (acc : List SPlaylistDict) :
    List SPlaylistPage → List SPlaylistDict
  | [] => acc
  | p :: rest =>
    let acc' := acc ++
      (p.items.filter (fun pl => pl.ownerId = userId)).map sPlaylistToDict
    if p.hasNext then get_spotify_playlists_go userId acc' rest else acc'

/-- `get_spotify_playlists()` (app.py lines 383–410), with the current user's
id and the page responses passed explicitly. -/
def get_spotify_playlists (userId : List Char) (pages : List SPlaylistPage) :
    List SPlaylistDict :=
  get_spotify_playlists_go userId [] pages

/-- Chunking `for i in range(0, len(track_ids), 100): batch = track_ids[i:i+100]`
(app.py lines 598–599). -/
def chunksOf100 {α : Type} : List α → List (List α)
  | [] => []
  | x :: xs => ((x :: xs).take 100) :: chunksOf100 ((x :: xs).drop 100)
termination_by l => l.length
decreasing_by simp [List.length_drop]; omega

/-- The sequence of `playlist_add_items` calls issued by
`create_spotify_playlist` (app.py lines 596–600): one call per chunk of at
most 100 track ids, none when the id list is empty. -/
def create_spotify_playlist_addCalls (track_ids : List (List Char)) :
    List (List (List Char)) :=
  chunksOf100 track_ids

/-- The sequence of add-track POSTs issued by `create_deezer_playlist`
(app.py lines 509–522): a single call carrying all ids, issued only when the
playlist-creation POST returned 200 with a playlist id and the id list is
non-empty. -/
def create_deezer_playlist_addCalls (createStatus : Nat)
    (playlist_id : Option Nat) (track_ids : List Nat) : List (List Nat) :=
  if createStatus = 200 then
    match playlist_id with
    | some _ => if track_ids.isEmpty then [] else [track_ids]
    | none => []
  else []

/-- A source track as consumed by the conversion loops (`title`, `artist`). -/
structure SrcTrack where
  title : List Char
  artist : List Char
  deriving Repr, DecidableEq

/-- The resolution loop shared by `convert_spotify_to_deezer`
(app.py lines 621–635) and `convert_deezer_to_spotify` (lines 668–682):
for each source track in order, a found destination track's id is appended to
`found_tracks`, otherwise `"{artist} - {title}"` is appended to `not_found`. -/
def resolveTracks {α β : Type} (search : List Char → List Char → Option α)
    (getId : α → β) : List SrcTrack → List β × List (List Char)
  | [] => ([], [])
  | t :: rest =>
    let r := resolveTracks search getId rest
    match search t.title t.artist with
    | some d => (getId d :: r.1, r.2)
    | none => (r.1, (t.artist ++ " - ".toList ++ t.title) :: r.2)

/-- The track-resolution phase of `convert_spotify_to_deezer`
(app.py lines 621–635), with the per-track Deezer search outcome passed as an
oracle. -/
def convert_spotify_to_deezer_resolve
    (search : List Char → List Char → Option DSearchResult)
    (tracks : List SrcTrack) : List Nat × List (List Char) :=
  resolveTracks search DSearchResult.id tracks

/-- The track-resolution phase of `convert_deezer_to_spotify`
(app.py lines 668–682), with the per-track Spotify search outcome passed as an
oracle. -/
def convert_deezer_to_spotify_resolve
    (search : List Char → List Char → Option SSearchResult)
    (tracks : List SrcTrack) : List (List Char) × List (List Char) :=
  resolveTracks search SSearchResult.id tracks

/-- The token-endpoint response of `exchange_code_for_token`: HTTP status and
the `parse_qs` of the body as an association list; `none` models a raised
transport exception. -/
structure QSResponse where
  status : Nat
  body : List (List Char × List Char)
  deriving Repr, DecidableEq

/-- `'access_token' in response_data` / `response_data['access_token'][0]`. -/
def lookupQS (key : List Char) (body : List (List Char × List Char)) :
    Option (List Char) :=
  (body.find? (fun kv => kv.1 = key)).map (fun kv => kv.2)

/-- `test_connection()` (app.py lines 193–222): false without a token; with a
token, true exactly when the `/user/me` request succeeds with status 200
(`none` models a raised transport exception). -/
def test_connection (access_token : Option (List Char)) (meStatus : Option Nat) :
    Bool :=
  match access_token with
  | none => false
  | some _ =>
    match meStatus with
    | some s => s = 200
    | none => false

/-- `exchange_code_for_token()` (app.py lines 151–191): succeeds iff the token
endpoint returns status exactly 200 with an `access_token` field *and* the
subsequent `test_connection` probe of `/user/me` returns 200. -/
def exchange_code_for_token (tokenResp : Option QSResponse)
    (meStatus : Option Nat) : Bool :=
  match tokenResp with
  | none => false
  | some r =>
    if r.status = 200 then
      match lookupQS "access_token".toList r.body with
      | some tok => test_connection (some tok) meStatus
      | none => false
    else false

/-- Page responses of an all-successful Deezer tracks fetch: every page
returns 200, and a `next` URL is present on every page but the last. -/
def mkDeezerOkResps : List (List DTrackRaw) → List DeezerTracksResp
  | [] => []
  | [p] => [DeezerTracksResp.http 200 p false]
  | p :: q :: rest => DeezerTracksResp.http 200 p true :: mkDeezerOkResps (q :: rest)

/-- Deezer page responses that all return 200 and all advertise a `next`
URL, for prefixing a failing page. -/
def mkDeezerOkNext (pages : List (List DTrackRaw)) : List DeezerTracksResp :=
  pages.map (fun p => DeezerTracksResp.http 200 p true)

/-- Spotify playlist-tracks pages with `next` present on all but the last. -/
def mkSpotifyTrackPages : List (List SpotifyItem) → List SpotifyTracksPage
  | [] => []
  | [p] => [⟨p, false⟩]
  | p :: q :: rest => ⟨p, true⟩ :: mkSpotifyTrackPages (q :: rest)

/-- Spotify user-playlists pages with `next` present on all but the last. -/
def mkSPlaylistPages : List (List SPlaylistItem) → List SPlaylistPage
  | [] => []
  | [p] => [⟨p, false⟩]
  | p :: q :: rest => ⟨p, true⟩ :: mkSPlaylistPages (q :: rest)

/-- The containment test as the specification words it (spec §4.3): both the
candidate's and the query's title and artist are normalized —
punctuation-stripped and lowercased — before the bidirectional substring
test.  Stated only for comparison with `deezerMatchTest`, which is what the
code runs and which never punctuation-strips the candidate's fields. -/
def claimMatchTestDeezer (title artist : List Char) (t : DTrackRaw) : Bool :=
  containsEither (lowerStr (pyClean title)) (lowerStr (pyClean t.title)) &&
  containsEither (lowerStr (pyClean artist)) (lowerStr (pyClean t.artistName))

end MusicConverter

namespace MusicConverter

example : pyClean "Hey, Jude!".toList = "Hey Jude".toList := by decide

example :
    search_deezer_track "Hey Jude".toList "The Beatles".toList 200
      [⟨"Hey, Jude!".toList, "The Beatles".toList, [], 0, 1⟩,
       ⟨"Hey Jude".toList, "The Beatles".toList, [], 0, 2⟩]
    = some (dResult ⟨"Hey Jude".toList, "The Beatles".toList, [], 0, 2⟩) := by
  decide


/-- C1: for every search whose response carries a non-empty candidate
sequence, both `search_deezer_track` (status 200) and `search_spotify_track`
return a destination track — the first candidate passing the containment
test, or else the first candidate as a fallback — and never report no-match. -/
theorem search_nonempty_never_none
    (title artist : List Char) (data : List DTrackRaw) (items : List STrackRaw)
    (hd : data ≠ []) (hi : items ≠ []) :
    (search_deezer_track title artist 200 data).isSome = true ∧
    (search_spotify_track title artist items).isSome = true := by
  constructor
  · cases data with
    | nil => exact absurd rfl hd
    | cons t0 ts =>
      cases hf : (t0 :: ts).find? (deezerMatchTest (pyClean title) (pyClean artist)) <;>
        simp [search_deezer_track, hf]
  · cases items with
    | nil => exact absurd rfl hi
    | cons t0 ts =>
      cases hf : (t0 :: ts).find? (spotifyMatchTest (pyClean title) (pyClean artist)) <;>
        simp [search_spotify_track, hf]

/-- Witness for C1 at a concrete one-candidate search on each platform. -/
theorem search_nonempty_never_none_witness :
    (search_deezer_track "a".toList "b".toList 200 [⟨[], [], [], 0, 1⟩]).isSome = true ∧
    (search_spotify_track "a".toList "b".toList [⟨[], [], [], 0, [], []⟩]).isSome = true :=
  search_nonempty_never_none "a".toList "b".toList
    [⟨[], [], [], 0, 1⟩] [⟨[], [], [], 0, [], []⟩] (by decide) (by decide)

/-- C2 counterexample: with query "Hey Jude" / "The Beatles" and candidates
[A = "Hey, Jude!", B = "Hey Jude"], the spec's normalize-both containment test
already accepts the first candidate A, yet the code's test (which only
lowercases the candidate, never stripping its punctuation) rejects A, so the
search returns B — not the first candidate satisfying the claim's test. -/
theorem matching_normalizes_candidate_counterexample :
    claimMatchTestDeezer "Hey Jude".toList "The Beatles".toList
      ⟨"Hey, Jude!".toList, "The Beatles".toList, [], 0, 1⟩ = true ∧
    deezerMatchTest (pyClean "Hey Jude".toList) (pyClean "The Beatles".toList)
      ⟨"Hey, Jude!".toList, "The Beatles".toList, [], 0, 1⟩ = false ∧
    search_deezer_track "Hey Jude".toList "The Beatles".toList 200
      [⟨"Hey, Jude!".toList, "The Beatles".toList, [], 0, 1⟩,
       ⟨"Hey Jude".toList, "The Beatles".toList, [], 0, 2⟩]
      = some (dResult ⟨"Hey Jude".toList, "The Beatles".toList, [], 0, 2⟩) ∧
    dResult ⟨"Hey Jude".toList, "The Beatles".toList, [], 0, 2⟩
      ≠ dResult ⟨"Hey, Jude!".toList, "The Beatles".toList, [], 0, 1⟩ := by
  decide

/-- C2 (amended): the matcher iterates candidates in order and selects the
first one for which the *lowercased* candidate title and the cleaned,
lowercased query title are substrings one of the other (either direction),
and likewise for the artist — on Spotify, against any of the candidate's
artists; the candidate's fields are lowercased but never punctuation-stripped. -/
theorem matching_selects_first_containment_match
    (title artist : List Char) (data : List DTrackRaw) (items : List STrackRaw)
    (td : DTrackRaw) (ts : STrackRaw)
    (hd : data.find? (deezerMatchTest (pyClean title) (pyClean artist)) = some td)
    (hs : items.find? (spotifyMatchTest (pyClean title) (pyClean artist)) = some ts) :
    search_deezer_track title artist 200 data = some (dResult td) ∧
    search_spotify_track title artist items = some (sResult ts) := by
  constructor
  · cases data with
    | nil => simp at hd
    | cons a as => simp [search_deezer_track, hd]
  · cases items with
    | nil => simp at hs
    | cons a as => simp [search_spotify_track, hs]

/-- Witness for amended C2 at concrete two-candidate searches where the
second candidate is the first to pass the code's test. -/
theorem matching_selects_first_containment_match_witness :
    search_deezer_track "Hey Jude".toList "The Beatles".toList 200
      [⟨"Hey, Jude!".toList, "The Beatles".toList, [], 0, 1⟩,
       ⟨"hey jude yeah".toList, "the beatles".toList, [], 0, 2⟩]
      = some (dResult ⟨"hey jude yeah".toList, "the beatles".toList, [], 0, 2⟩) ∧
    search_spotify_track "Hey Jude".toList "The Beatles".toList
      [⟨"hey jude yeah".toList, ["the beatles".toList], [], 0, [], []⟩]
      = some (sResult ⟨"hey jude yeah".toList, ["the beatles".toList], [], 0, [], []⟩) :=
  matching_selects_first_containment_match "Hey Jude".toList "The Beatles".toList
    _ _ _ _ (by decide) (by decide)

/-- C7: the normalization step keeps alphanumeric and whitespace characters,
so a string made only of those is unchanged, and normalization is idempotent
on every string. -/
theorem pyClean_noop_and_idempotent (s : List Char)
    (h : ∀ c ∈ s, c.isAlphanum = true ∨ isSpaceChar c = true) :
    pyClean s = s ∧ ∀ t : List Char, pyClean (pyClean t) = pyClean t := by
  constructor
  · apply List.filter_eq_self.mpr
    intro a ha
    rcases h a ha with h1 | h1 <;> simp [isWordChar, h1]
  · intro t
    unfold pyClean
    apply List.filter_eq_self.mpr
    intro a ha
    have h2 := List.of_mem_filter ha
    simpa using h2

/-- Witness for C7 on the already-normalized string "abc 123". -/
theorem pyClean_noop_and_idempotent_witness :
    pyClean "abc 123".toList = "abc 123".toList ∧
    ∀ t : List Char, pyClean (pyClean t) = pyClean t :=
  pyClean_noop_and_idempotent "abc 123".toList (by decide)


/-- The number of chunks of 100 is the ceiling of the length over 100. -/
theorem chunksOf100_length {α : Type} (l : List α) :
    (chunksOf100 l).length = (l.length + 99) / 100 := by
  induction l using chunksOf100.induct with
  | case1 => simp [chunksOf100]
  | case2 x xs ih =>
    rw [chunksOf100]
    simp only [List.length_cons, List.length_drop] at *
    omega

/-- Every chunk produced by `chunksOf100` has at most 100 elements. -/
theorem chunksOf100_sizes {α : Type} (l : List α) :
    ∀ b ∈ chunksOf100 l, b.length ≤ 100 := by
  induction l using chunksOf100.induct with
  | case1 => simp [chunksOf100]
  | case2 x xs ih =>
    rw [chunksOf100]
    intro b hb
    rcases List.mem_cons.mp hb with h | h
    · subst h
      simp
    · exact ih b h

/-- C3: creating a Spotify playlist from K track ids issues exactly
ceil(K/100) add-track calls, each of at most 100 ids, while creating a Deezer
playlist issues exactly one add-track call whenever K > 0. -/
theorem create_playlist_batching
    (ids : List (List Char)) (dids : List Nat) (pid : Nat) (h : dids ≠ []) :
    (create_spotify_playlist_addCalls ids).length = (ids.length + 99) / 100 ∧
    (∀ b ∈ create_spotify_playlist_addCalls ids, b.length ≤ 100) ∧
    (create_deezer_playlist_addCalls 200 (some pid) dids).length = 1 := by
  refine ⟨chunksOf100_length ids, chunksOf100_sizes ids, ?_⟩
  cases dids with
  | nil => exact absurd rfl h
  | cons d ds => simp [create_deezer_playlist_addCalls]

/-- Witness for C3: 150 Spotify ids produce 2 add calls, one Deezer id
produces 1. -/
theorem create_playlist_batching_witness :
    (create_spotify_playlist_addCalls (List.replicate 150 [])).length = 2 ∧
    (create_deezer_playlist_addCalls 200 (some 5) [7]).length = 1 := by
  have h := create_playlist_batching (List.replicate 150 []) [7] 5 (by decide)
  exact ⟨by simpa using h.1, h.2.2⟩

/-- An all-successful Deezer fetch accumulates every page in order. -/
theorem deezer_go_mkOk (acc : List DTrackDict) (pages : List (List DTrackRaw)) :
    get_deezer_playlist_tracks_go acc (mkDeezerOkResps pages)
      = acc ++ (pages.map (fun p => p.map dTrackToDict)).flatten := by
  induction pages generalizing acc with
  | nil => simp [mkDeezerOkResps, get_deezer_playlist_tracks_go]
  | cons p rest ih =>
    cases rest with
    | nil => simp [mkDeezerOkResps, get_deezer_playlist_tracks_go]
    | cons q rest2 =>
      simp [mkDeezerOkResps, get_deezer_playlist_tracks_go, ih]

/-- An all-successful Spotify tracks fetch accumulates every page in order. -/
theorem spotify_go_mk (acc : List STrackDict) (pages : List (List SpotifyItem)) :
    get_spotify_playlist_tracks_go acc (mkSpotifyTrackPages pages)
      = acc ++ (pages.map (fun items => items.filterMap extractSpotifyItem)).flatten := by
  induction pages generalizing acc with
  | nil => simp [mkSpotifyTrackPages, get_spotify_playlist_tracks_go]
  | cons p rest ih =>
    cases rest with
    | nil => simp [mkSpotifyTrackPages, get_spotify_playlist_tracks_go]
    | cons q rest2 =>
      simp [mkSpotifyTrackPages, get_spotify_playlist_tracks_go, ih]

/-- C4: when every page succeeds, both paginated track listings return
exactly the concatenation of the pages' extracted tracks, in page order, for
any number of pages. -/
theorem pagination_concatenates_pages
    (dpages : List (List DTrackRaw)) (spages : List (List SpotifyItem)) :
    get_deezer_playlist_tracks (mkDeezerOkResps dpages)
      = (dpages.map (fun p => p.map dTrackToDict)).flatten ∧
    get_spotify_playlist_tracks (mkSpotifyTrackPages spages)
      = (spages.map (fun items => items.filterMap extractSpotifyItem)).flatten :=
  ⟨by simpa using deezer_go_mkOk [] dpages,
   by simpa using spotify_go_mk [] spages⟩

/-- Consuming a prefix of successful pages (all with a `next` URL) just
accumulates their tracks before handling the remaining responses. -/
theorem deezer_go_okNext (pages : List (List DTrackRaw))
    (tail : List DeezerTracksResp) (acc : List DTrackDict) :
    get_deezer_playlist_tracks_go acc (mkDeezerOkNext pages ++ tail)
      = get_deezer_playlist_tracks_go
          (acc ++ (pages.map (fun p => p.map dTrackToDict)).flatten) tail := by
  induction pages generalizing acc with
  | nil => simp [mkDeezerOkNext]
  | cons p rest ih =>
    simp only [mkDeezerOkNext] at ih ⊢
    simp [get_deezer_playlist_tracks_go, ih, List.append_assoc]

/-- C5 counterexample: a 403 (and likewise a 404 or a transport failure) on
the second page makes `get_deezer_playlist_tracks` return an empty list,
discarding the tracks accumulated from the first page — not the truncated
sequence the claim promises. -/
theorem pagination_failure_discards_counterexample :
    get_deezer_playlist_tracks
      [DeezerTracksResp.http 200 [⟨"A".toList, "B".toList, "C".toList, 9, 10⟩] true,
       DeezerTracksResp.http 403 [] false] = [] ∧
    get_deezer_playlist_tracks
      [DeezerTracksResp.http 200 [⟨"A".toList, "B".toList, "C".toList, 9, 10⟩] true,
       DeezerTracksResp.transportErr] = [] ∧
    [⟨"A".toList, "B".toList, "C".toList, 9, 10⟩].map dTrackToDict ≠ [] := by
  decide

/-- C5 (amended): on a page after any number of successfully fetched pages, a
non-2xx status other than 403/404 truncates the fetch, returning the tracks
accumulated so far; a 403, a 404, or a transport failure instead returns an
empty result, discarding the already-fetched tracks. -/
theorem pagination_failure_behavior
    (pages : List (List DTrackRaw)) (s : Nat) (d : List DTrackRaw) (b : Bool)
    (rest : List DeezerTracksResp)
    (hs : s ≠ 200) (h403 : s ≠ 403) (h404 : s ≠ 404) :
    get_deezer_playlist_tracks
        (mkDeezerOkNext pages ++ DeezerTracksResp.http s d b :: rest)
      = (pages.map (fun p => p.map dTrackToDict)).flatten ∧
    get_deezer_playlist_tracks
        (mkDeezerOkNext pages ++ DeezerTracksResp.http 403 d b :: rest) = [] ∧
    get_deezer_playlist_tracks
        (mkDeezerOkNext pages ++ DeezerTracksResp.http 404 d b :: rest) = [] ∧
    get_deezer_playlist_tracks
        (mkDeezerOkNext pages ++ DeezerTracksResp.transportErr :: rest) = [] := by
  unfold get_deezer_playlist_tracks
  rw [deezer_go_okNext, deezer_go_okNext, deezer_go_okNext, deezer_go_okNext]
  refine ⟨?_, ?_, ?_, ?_⟩ <;>
    simp [get_deezer_playlist_tracks_go, hs, h403, h404]

/-- Witness for amended C5: a 500 on the second page returns the first page's
tracks; a 403, 404 or transport failure there returns nothing. -/
theorem pagination_failure_behavior_witness :
    get_deezer_playlist_tracks
        (mkDeezerOkNext [[⟨"A".toList, "B".toList, "C".toList, 9, 10⟩]]
          ++ DeezerTracksResp.http 500 [] false :: [])
      = ([[⟨"A".toList, "B".toList, "C".toList, 9, 10⟩]].map
          (fun p => p.map dTrackToDict)).flatten ∧
    get_deezer_playlist_tracks
        (mkDeezerOkNext [[⟨"A".toList, "B".toList, "C".toList, 9, 10⟩]]
          ++ DeezerTracksResp.http 403 [] false :: []) = [] ∧
    get_deezer_playlist_tracks
        (mkDeezerOkNext [[⟨"A".toList, "B".toList, "C".toList, 9, 10⟩]]
          ++ DeezerTracksResp.http 404 [] false :: []) = [] ∧
    get_deezer_playlist_tracks
        (mkDeezerOkNext [[⟨"A".toList, "B".toList, "C".toList, 9, 10⟩]]
          ++ DeezerTracksResp.transportErr :: []) = [] :=
  pagination_failure_behavior [[⟨"A".toList, "B".toList, "C".toList, 9, 10⟩]]
    500 [] false [] (by decide) (by decide) (by decide)

/-- C6 counterexample: a 201 token response carrying an access token makes
`exchange_code_for_token` fail although the claim ("fails exactly on non-2xx
or missing token") says it must succeed; and even a 200 response with a token
fails when the follow-up `/user/me` validation probe returns 401. -/
theorem token_exchange_counterexample :
    exchange_code_for_token
      (some ⟨201, [("access_token".toList, "tok".toList)]⟩) (some 200) = false ∧
    (200 ≤ 201 ∧ 201 < 300) ∧
    lookupQS "access_token".toList [("access_token".toList, "tok".toList)]
      = some "tok".toList ∧
    exchange_code_for_token
      (some ⟨200, [("access_token".toList, "tok".toList)]⟩) (some 401) = false := by
  decide

/-- C6 (amended): the code-for-token exchange succeeds exactly when the token
endpoint is reached, returns status exactly 200 with an `access_token` field,
and the subsequent `test_connection` probe of `/user/me` returns 200; it
fails in every other case. -/
theorem token_exchange_success_characterization
    (st : Nat) (body : List (List Char × List Char)) (meStatus : Option Nat) :
    (exchange_code_for_token (some ⟨st, body⟩) meStatus = true ↔
      st = 200 ∧ (lookupQS "access_token".toList body).isSome = true ∧
        meStatus = some 200) ∧
    exchange_code_for_token none meStatus = false := by
  refine ⟨?_, rfl⟩
  show (if st = 200 then
          match lookupQS "access_token".toList body with
          | some tok => test_connection (some tok) meStatus
          | none => false
        else false) = true ↔ _
  by_cases h200 : st = 200
  · rw [if_pos h200]
    cases htok : lookupQS "access_token".toList body with
    | none => simp [htok, h200]
    | some tok =>
      cases meStatus with
      | none => simp [test_connection, htok, h200]
      | some s => simp [test_connection, htok, h200]
  · rw [if_neg h200]
    simp [h200]

/-- The resolution loop partitions the source tracks: every source track goes
to exactly one of the found-ids list and the not-found list, and the found
ids are the search hits' ids in source order. -/
theorem resolveTracks_spec {α β : Type} (search : List Char → List Char → Option α)
    (getId : α → β) (tracks : List SrcTrack) :
    (resolveTracks search getId tracks).1.length
        + (resolveTracks search getId tracks).2.length = tracks.length ∧
    (resolveTracks search getId tracks).1
        = tracks.filterMap (fun t => (search t.title t.artist).map getId) := by
  induction tracks with
  | nil => simp [resolveTracks]
  | cons t rest ih =>
    have h1 := ih.1
    have h2 := ih.2
    cases hs : search t.title t.artist with
    | some d =>
      refine ⟨?_, ?_⟩
      · simp only [resolveTracks, hs, List.length_cons]
        omega
      · simp [resolveTracks, hs, h2]
    | none =>
      refine ⟨?_, ?_⟩
      · simp only [resolveTracks, hs, List.length_cons]
        omega
      · simp [resolveTracks, hs, h2]

/-- C8: in both conversion directions, each source track lands in exactly one
of the resolved-id list and the unresolved list — their lengths sum to the
number of source tracks — and the resolved ids are the successful searches'
ids in source order. -/
theorem conversion_partitions_tracks
    (dsearch : List Char → List Char → Option DSearchResult)
    (ssearch : List Char → List Char → Option SSearchResult)
    (tracks : List SrcTrack) :
    ((convert_spotify_to_deezer_resolve dsearch tracks).1.length
        + (convert_spotify_to_deezer_resolve dsearch tracks).2.length
        = tracks.length ∧
      (convert_spotify_to_deezer_resolve dsearch tracks).1
        = tracks.filterMap
            (fun t => (dsearch t.title t.artist).map DSearchResult.id)) ∧
    ((convert_deezer_to_spotify_resolve ssearch tracks).1.length
        + (convert_deezer_to_spotify_resolve ssearch tracks).2.length
        = tracks.length ∧
      (convert_deezer_to_spotify_resolve ssearch tracks).1
        = tracks.filterMap
            (fun t => (ssearch t.title t.artist).map SSearchResult.id)) :=
  ⟨resolveTracks_spec dsearch DSearchResult.id tracks,
   resolveTracks_spec ssearch SSearchResult.id tracks⟩

/-- C9: listing a Spotify playlist's tracks skips every item whose track is
absent or whose type is not 'track', so the result can only be at most — and
for some playlists strictly shorter than — the number of playlist items. -/
theorem spotify_tracks_skips_non_tracks
    (r : STrackRaw) (item : SpotifyItem) (pagesItems : List (List SpotifyItem))
    (hnone : item.track = none) (hty : r.type ≠ "track".toList) :
    extractSpotifyItem item = none ∧
    extractSpotifyItem ⟨some r⟩ = none ∧
    (get_spotify_playlist_tracks (mkSpotifyTrackPages pagesItems)).length
        ≤ (pagesItems.map List.length).sum ∧
    ∃ pages : List (List SpotifyItem),
      (get_spotify_playlist_tracks (mkSpotifyTrackPages pages)).length
        < (pages.map List.length).sum := by
  refine ⟨?_, ?_, ?_, ?_⟩
  · unfold extractSpotifyItem
    rw [hnone]
  · simp only [extractSpotifyItem]
    rw [if_neg hty]
  · rw [show get_spotify_playlist_tracks (mkSpotifyTrackPages pagesItems)
          = (pagesItems.map
              (fun items => items.filterMap extractSpotifyItem)).flatten from
        by simpa using spotify_go_mk [] pagesItems]
    rw [List.length_flatten]
    simp only [List.map_map]
    apply List.sum_le_sum
    intro items _
    simpa using List.length_filterMap_le extractSpotifyItem items
  · exact ⟨[[⟨none⟩]], by decide⟩

/-- Witness for C9 at a null-track item and an episode-typed track. -/
theorem spotify_tracks_skips_non_tracks_witness :
    extractSpotifyItem ⟨none⟩ = none ∧
    extractSpotifyItem ⟨some ⟨[], [], [], 0, [], "episode".toList⟩⟩ = none ∧
    (get_spotify_playlist_tracks (mkSpotifyTrackPages [])).length
        ≤ (([] : List (List SpotifyItem)).map List.length).sum ∧
    ∃ pages : List (List SpotifyItem),
      (get_spotify_playlist_tracks (mkSpotifyTrackPages pages)).length
        < (pages.map List.length).sum :=
  spotify_tracks_skips_non_tracks ⟨[], [], [], 0, [], "episode".toList⟩
    ⟨none⟩ [] rfl (by decide)

/-- Filtering to the user-owned playlists commutes with accumulating pages. -/
theorem playlists_go_mk (userId : List Char) (acc : List SPlaylistDict)
    (pages : List (List SPlaylistItem)) :
    get_spotify_playlists_go userId acc (mkSPlaylistPages pages)
      = acc ++ (pages.flatten.filter (fun pl => pl.ownerId = userId)).map
          sPlaylistToDict := by
  induction pages generalizing acc with
  | nil => simp [mkSPlaylistPages, get_spotify_playlists_go]
  | cons p rest ih =>
    cases rest with
    | nil => simp [mkSPlaylistPages, get_spotify_playlists_go]
    | cons q rest2 =>
      simp [mkSPlaylistPages, get_spotify_playlists_go, ih]

/-- C10: listing the user's Spotify playlists returns exactly the playlists
whose owner id equals the current user's id, across all pages; playlists
merely followed (owned by someone else) are excluded. -/
theorem playlists_only_owned (userId : List Char)
    (pages : List (List SPlaylistItem)) :
    get_spotify_playlists userId (mkSPlaylistPages pages)
      = (pages.flatten.filter (fun pl => pl.ownerId = userId)).map
          sPlaylistToDict := by
  simpa using playlists_go_mk userId [] pages

end MusicConverter
